import Mathlib

/-!
Verification of the error-handling core in `src/util/errors.rs`.

The file shallowly embeds the module: the closed set of `CargoError`
implementations in the source becomes an inductive type `CargoErr`, and each
trait method (`description`, `cause`, `human`, `response`) becomes a function
on it, with the default trait bodies inlined exactly where the source uses the
default and the per-type overrides translated at the matching constructor.
-/

namespace CargoErrors

/-- Shallow model of a `conduit::Response` as far as this module observes it:
a status line and the list of `detail` strings of the encoded
`Bad / StringError` body.  The status is `none` while it still has the
default value chosen by the external response constructor. -/
structure Response where
  status : Option (Nat × String)
  body : List String
deriving Repr, DecidableEq

/-- Modelled from the spec: `util::json_response` is not under `src/`; per the
spec it builds a response whose body is the encoded record and whose status is
the caller-default status chosen by the external collaborator (kept abstract
here as `none`). -/
def json_response (body : List String) : Response :=
  { status := none, body := body }

/-- The closed set of `CargoError` implementations defined in
`src/util/errors.rs`: `ConcreteCargoError`, `ChainedError`, the sentinels
`NotFound` and `Unauthorized`, and the blanket impl for any
`E: std::error::Error + Send` (which contributes only a description). -/
inductive CargoErr where
  | ConcreteCargoError (description : String) (detail : Option String)
      (cause : Option CargoErr) (human : Bool)
  | ChainedError (error : CargoErr) (cause : CargoErr)
  | NotFound
  | Unauthorized
  | StdError (description : String)
deriving Repr

namespace CargoErr

/-- The `description` method of each implementation: `ConcreteCargoError`
returns its field, `ChainedError` delegates to its context error, the
sentinels return their fixed strings, and the blanket impl delegates to the
wrapped `std` error's description. -/
def description : CargoErr → String
  | ConcreteCargoError d _ _ _ => d
  | ChainedError e _ => description e
  | NotFound => "not found"
  | Unauthorized => "unauthorized"
  | StdError d => d

/-- The `cause` method: `ConcreteCargoError` returns its (optional) field,
`ChainedError` returns its stored cause, and every other implementation keeps
the trait default `None`. -/
def cause : CargoErr → Option CargoErr
  | ConcreteCargoError _ _ c _ => c
  | ChainedError _ c => some c
  | NotFound => none
  | Unauthorized => none
  | StdError _ => none

/-- The `human` method: `ConcreteCargoError` returns its flag, `ChainedError`
delegates to its context error, and every other implementation keeps the
trait default `false`. -/
def human : CargoErr → Bool
  | ConcreteCargoError _ _ _ h => h
  | ChainedError e _ => human e
  | NotFound => false
  | Unauthorized => false
  | StdError _ => false

/-- The `response` method.  `ConcreteCargoError` and the blanket impl use the
trait default (if `human()`, a body with one detail equal to `description()`,
otherwise recurse into `cause()`); `ChainedError` overrides it to delegate to
its context error's `response()`; the sentinels override it with their fixed
status and body. -/
def response : CargoErr → Option Response
  | ConcreteCargoError d _ oc h =>
      if h then
        some (json_response [d])
      else
        match oc with
        | some c => response c
        | none => none
  | ChainedError e _ => response e
  | NotFound =>
      some { json_response ["Not Found"] with status := some (404, "Not Found") }
  | Unauthorized =>
      some { json_response ["must be logged in to perform that action"] with
               status := some (403, "Forbidden") }
  | StdError _ => none

/-- The `fmt::Display` rendering of each implementation:
`ConcreteCargoError` writes its description followed by " (<detail>)" when a
detail is present, `ChainedError` delegates to its context error, the
sentinels write their fixed texts, and for the blanket impl the display of a
plain `std` error is modelled as its description (the source leaves it to the
wrapped type). -/
def display : CargoErr → String
  | ConcreteCargoError d dt _ _ =>
      match dt with
      | some s => d ++ " (" ++ s ++ ")"
      | none => d
  | ChainedError e _ => display e
  | NotFound => "Not Found"
  | Unauthorized => "must be logged in to perform that action"
  | StdError d => d

/-- The `while let Some(cause) = err.cause()` loop in `std_error`'s `Display`
impl: one line "\nCaused by: <display of cause>" for every link of the cause
chain below the given error.  The patterns enumerate exactly the cases where
`cause` returns `some`. -/
def causeLines : CargoErr → String
  | ConcreteCargoError _ _ (some c) _ => "\nCaused by: " ++ display c ++ causeLines c
  | ChainedError _ c => "\nCaused by: " ++ display c ++ causeLines c
  | _ => ""

end CargoErr

/-- The value returned by `std_error`: a `Box<Error+Send>` observed through
its two methods, `description` (delegating to the wrapped error) and the
`Display` rendering (the wrapped error's display followed by one
"\nCaused by:" line per link of its cause chain). -/
structure StdErrorBox where
  description : String
  display : String
deriving Repr, DecidableEq

/-- The `std_error` adapter from `src/util/errors.rs`. -/
def std_error (e : CargoErr) : StdErrorBox :=
  { description := e.description, display := e.display ++ e.causeLines }

/-- The `chain_error` impl for `Result<T, E>`: `map_err` wraps a failure in a
`ChainedError` whose context error is the factory's result and whose cause is
the original error; a success passes through untouched. -/
def chain_error {T : Type} : Except CargoErr T → (Unit → CargoErr) → Except CargoErr T
  | .ok t, _ => .ok t
  | .error e, callback => .error (.ChainedError (callback ()) e)

/-- The `chain_error` impl for `Option<T>`: `Some` passes through as a
success, `None` becomes a failure carrying the factory's error boxed
directly (no `ChainedError` wrapper). -/
def chain_error_option {T : Type} : Option T → (Unit → CargoErr) → Except CargoErr T
  | some t, _ => .ok t
  | none, callback => .error (callback ())

/-- The `chain_error` impl for a closure `F: FnOnce() -> CargoResult<T>`:
invoke it, then chain its `Result`. -/
def chain_error_fn {T : Type} (f : Unit → Except CargoErr T)
    (callback : Unit → CargoErr) : Except CargoErr T :=
  chain_error (f ()) callback

/-- The `internal_error` constructor: non-human, with detail, no cause. -/
def internal_error (error : String) (detail : String) : CargoErr :=
  .ConcreteCargoError error (some detail) none false

/-- The `internal` constructor: non-human, no detail, no cause. -/
def internal (error : String) : CargoErr :=
  .ConcreteCargoError error none none false

/-- The `human` constructor: human-flagged, no detail, no cause. -/
def human (error : String) : CargoErr :=
  .ConcreteCargoError error none none true

end CargoErrors

-- =============================================================================
-- Claim theorems

namespace CargoErrors

/-- C1 (counterexample): for the `ChainedError` whose context error is
`internal("could not save")` and whose cause is `human("invalid name")`,
`response()` is `None`, not a response with body detail "invalid name": the
override delegates to the context error's own `response()`, which is `None`
for a non-human error without a cause, so the `ChainedError`'s human cause is
never consulted. -/
theorem C1_counterexample :
    (CargoErr.ChainedError (internal "could not save")
        (human "invalid name")).response = none := rfl

/-- C1 (amended): for a `ChainedError` whose context error is
`internal(...)`, `response()` is `None` whatever the stored cause is — the
outer non-human layer does not defer to the `ChainedError`'s cause; only the
cause chain reachable through the context error itself can supply a human
message. -/
theorem C1_amended :
    (CargoErr.ChainedError (internal "could not save")
        (human "invalid name")).response = none ∧
    ∀ (d : String) (c : CargoErr),
      (CargoErr.ChainedError (internal d) c).response = none :=
  ⟨rfl, fun _ _ => rfl⟩

/-- C1 (amended, witness): the universal part evaluated at a concrete
description and cause. -/
theorem C1_amended_witness :
    (CargoErr.ChainedError (internal "could not save")
        (human "invalid name")).response = none :=
  C1_amended.2 "could not save" (human "invalid name")

/-- C2: a `ChainedError`'s `response()` equals the context error's own
`response()`, and it does not depend on the stored cause field at all. -/
theorem C2_chained_response_is_context_response :
    ∀ e c : CargoErr,
      (CargoErr.ChainedError e c).response = e.response ∧
      ∀ c' : CargoErr,
        (CargoErr.ChainedError e c).response =
          (CargoErr.ChainedError e c').response :=
  fun _ _ => ⟨rfl, fun _ => rfl⟩

/-- C3: the default `response()` algorithm on `ConcreteCargoError` (the only
data-bearing implementation that keeps the trait default): a human error
yields one detail entry equal to its description, a non-human error with a
cause delegates to the cause's `response()`, a non-human error without a
cause yields `None`; in particular `human("invalid name")` responds with body
detail "invalid name" and `internal("db failure")` responds with `None`. -/
theorem C3_default_response_algorithm :
    (∀ (d : String) (dt : Option String) (oc : Option CargoErr),
      (CargoErr.ConcreteCargoError d dt oc true).response =
        some (json_response
          [(CargoErr.ConcreteCargoError d dt oc true).description])) ∧
    (∀ (d : String) (dt : Option String) (c : CargoErr),
      (CargoErr.ConcreteCargoError d dt (some c) false).response =
        c.response) ∧
    (∀ (d : String) (dt : Option String),
      (CargoErr.ConcreteCargoError d dt none false).response = none) ∧
    (human "invalid name").response = some (json_response ["invalid name"]) ∧
    (internal "db failure").response = none := by
  refine ⟨fun d dt oc => ?_, fun _ _ _ => rfl, fun _ _ => rfl, rfl, rfl⟩
  cases oc <;> rfl

/-- C4: chaining a failing `Result::Err(e)` with factory `f` yields a failure
whose error describes itself as `f()` does, whose cause is present and is
exactly the original error `e` (hence the cause's description equals
`e.description()`). -/
theorem C4_chain_error_on_err :
    ∀ (T : Type) (f : Unit → CargoErr) (e : CargoErr),
      ∃ e' : CargoErr,
        chain_error (Except.error e : Except CargoErr T) f =
          Except.error e' ∧
        e'.description = (f ()).description ∧
        e'.cause = some e ∧
        e'.cause.map CargoErr.description = some e.description :=
  fun _ f e => ⟨.ChainedError (f ()) e, rfl, rfl, rfl, rfl⟩

/-- C5 (counterexample): the legacy-bridge value for
`internal_error("save failed", "disk full")` renders as
"save failed (disk full)" — the error's display text — and not as its
`description()`, which is "save failed". -/
theorem C5_counterexample :
    (std_error (internal_error "save failed" "disk full")).display =
      "save failed (disk full)" ∧
    (internal_error "save failed" "disk full").description = "save failed" ∧
    (std_error (internal_error "save failed" "disk full")).display ≠
      (std_error (internal_error "save failed" "disk full")).description :=
  ⟨rfl, rfl, by decide⟩

/-- C5 (amended): the legacy-bridge rendering writes the top error's display
text — not its `description()` — followed by one
"\nCaused by: <cause's display text>" line per cause link: the rendering of a
chained error is its context display, a "Caused by" line, then the rendering
of the cause; since display equals description for concrete errors without a
detail, a 3-level chain top → mid → leaf of such errors renders exactly
"<top>\nCaused by: <mid>\nCaused by: <leaf>" over the descriptions. -/
theorem C5_amended :
    (∀ e c : CargoErr,
      (std_error (CargoErr.ChainedError e c)).display =
        e.display ++ "\nCaused by: " ++ (std_error c).display) ∧
    (∀ t m l : String,
      (std_error (CargoErr.ChainedError (internal t)
          (CargoErr.ChainedError (internal m) (internal l)))).display =
        t ++ "\nCaused by: " ++ m ++ "\nCaused by: " ++ l) := by
  constructor
  · intro e c
    simp [std_error, CargoErr.display, CargoErr.causeLines,
      String.append_assoc]
  · intro t m l
    simp [std_error, internal, CargoErr.display, CargoErr.causeLines,
      CargoErr.description, String.append_empty, String.append_assoc]

/-- C6: the sentinel overrides are absolute: `NotFound.response()` is always
the fixed 404 response with body detail "Not Found" and
`Unauthorized.response()` always the fixed 403 response with body detail
"must be logged in to perform that action"; their `human()` is false, their
descriptions are "not found" and "unauthorized", and wrapping a sentinel as
the cause of another error leaves the value stored as the cause — and hence
its own `response()` — unchanged. -/
theorem C6_sentinel_responses :
    CargoErr.NotFound.response =
      some { status := some (404, "Not Found"), body := ["Not Found"] } ∧
    CargoErr.Unauthorized.response =
      some { status := some (403, "Forbidden"),
             body := ["must be logged in to perform that action"] } ∧
    CargoErr.NotFound.description = "not found" ∧
    CargoErr.Unauthorized.description = "unauthorized" ∧
    CargoErr.NotFound.human = false ∧
    CargoErr.Unauthorized.human = false ∧
    ∀ w : CargoErr,
      (CargoErr.ChainedError w CargoErr.NotFound).cause.map
        CargoErr.response =
        some (some { status := some (404, "Not Found"),
                     body := ["Not Found"] }) :=
  ⟨rfl, rfl, rfl, rfl, rfl, rfl, fun _ => rfl⟩

/-- C7 (counterexample): chaining `Option::None` with a factory whose error
itself carries a cause produces a failure whose `cause()` is not none: the
factory's error is boxed directly, so its own cause field shows through. -/
theorem C7_counterexample :
    chain_error_option (none : Option Unit)
        (fun _ => CargoErr.ConcreteCargoError "ctx" none
          (some (internal "inner")) false) =
      Except.error (CargoErr.ConcreteCargoError "ctx" none
        (some (internal "inner")) false) ∧
    (CargoErr.ConcreteCargoError "ctx" none
        (some (internal "inner")) false).cause ≠ none :=
  ⟨rfl, by simp [CargoErr.cause]⟩

/-- C7 (amended): chaining `Option::None` with factory `f` yields a failure
whose error is exactly `f()`'s value: its `description()` equals
`f().description()` and its `cause()` equals `f().cause()` — no cause is
attached by `chain_error`, so the cause is none exactly when the factory's
error has none (as it does for every constructor in this module). -/
theorem C7_amended :
    ∀ (T : Type) (f : Unit → CargoErr),
      ∃ e' : CargoErr,
        chain_error_option (none : Option T) f = Except.error e' ∧
        e'.description = (f ()).description ∧
        e'.cause = (f ()).cause :=
  fun _ f => ⟨f (), rfl, rfl, rfl⟩

/-- C8: on the success path — `Result::Ok(t)` or `Option::Some(t)` — every
`chain_error` impl returns `Ok(t)` unchanged, for every factory. -/
theorem C8_chain_error_success_identity :
    ∀ (T : Type) (t : T) (f : Unit → CargoErr),
      chain_error (Except.ok t : Except CargoErr T) f = Except.ok t ∧
      chain_error_option (some t) f = Except.ok t ∧
      chain_error_fn (fun _ => Except.ok t) f = Except.ok t :=
  fun _ _ _ => ⟨rfl, rfl, rfl⟩

/-- C9: the three constructors: `internal` gives a non-human error with no
detail and no cause, `internal_error` gives a non-human error with the given
detail and no cause, and `human` gives the only human-flagged error, with no
detail and no cause.  The detail field is observed through the display
rendering: it adds " (<detail>)" after the description exactly when a detail
is present, so `internal` and `human` display as the bare description while
`internal_error` displays the given detail. -/
theorem C9_constructors :
    ∀ d dt : String,
      (internal d).human = false ∧
      (internal d).cause = none ∧
      (internal d).description = d ∧
      (internal d).display = d ∧
      (internal_error d dt).human = false ∧
      (internal_error d dt).cause = none ∧
      (internal_error d dt).description = d ∧
      (internal_error d dt).display = d ++ " (" ++ dt ++ ")" ∧
      (human d).human = true ∧
      (human d).cause = none ∧
      (human d).description = d ∧
      (human d).display = d :=
  fun _ _ => ⟨rfl, rfl, rfl, rfl, rfl, rfl, rfl, rfl, rfl, rfl, rfl, rfl⟩

/-- C10: a `ConcreteCargoError` with a detail displays as
"<description> (<detail>)" and one without a detail displays as the
description alone; in particular `internal_error("save failed", "disk full")`
displays as "save failed (disk full)". -/
theorem C10_display_rendering :
    (∀ (d dt : String) (c : Option CargoErr) (h : Bool),
      (CargoErr.ConcreteCargoError d (some dt) c h).display =
        d ++ " (" ++ dt ++ ")") ∧
    (∀ (d : String) (c : Option CargoErr) (h : Bool),
      (CargoErr.ConcreteCargoError d none c h).display = d) ∧
    (internal_error "save failed" "disk full").display =
      "save failed (disk full)" := by
  refine ⟨fun d dt c h => ?_, fun _ _ _ => rfl, rfl⟩
  simp [CargoErr.display, String.append_assoc]

end CargoErrors
